import Mathlib

/-!
Verification of `cns/networkcontainers/networkcontainers_linux.go` from
azure-container-networking.

The development shallowly embeds the Go source: JSON documents become an
inductive `JVal`; `encoding/json` parsing and marshalling become executable
Lean functions; the functions of the source file (`getNetworkConf`,
`pluginErr`, `updateNetwork`, `createOrUpdateWithOperation`,
`createOrUpdateInterface`, `buildCNIRuntimeConf`, `args`) become Lean
functions over an explicit environment that stands for the filesystem and
the subprocess.  A Go runtime panic (failed type assertion, index out of
range) is modelled as a distinct `crash` outcome, separate from an error
value returned to the caller.
-/

/-- JSON values, as produced by Go's `encoding/json` when decoding into
`interface\x7b\x7d`: null, booleans, numbers (kept as their source text),
strings, arrays, and objects (association lists with distinct keys, since
decoding into a Go map keeps one binding per key). -/
inductive JVal where
  | jnull : JVal
  | jbool : Bool → JVal
  | jnum : String → JVal
  | jstr : String → JVal
  | jarr : List JVal → JVal
  | jobj : List (String × JVal) → JVal

/-- Insert-or-replace a key in an association list, as assignment into a Go
map does: an existing key keeps its position and gets the new value, a new
key is appended. -/
def upsert {α : Type} : List (String × α) → String → α → List (String × α)
  | [], k, v => [(k, v)]
  | (k', v') :: rest, k, v =>
    if k' = k then (k, v) :: rest else (k', v') :: upsert rest k v

/-- Lookup in an association list, as indexing a Go map. -/
def lookupJ {α : Type} : List (String × α) → String → Option α
  | [], _ => none
  | (k', v) :: rest, k => if k' = k then some v else lookupJ rest k

/-- Drop JSON whitespace. -/
def skipWs : List Char → List Char
  | [] => []
  | c :: cs =>
    if c = ' ' ∨ c = '\n' ∨ c = '\t' ∨ c = '\r' then skipWs cs else c :: cs

/-- Value of a hexadecimal digit. -/
def hexVal (c : Char) : Option Nat :=
  if '0' ≤ c ∧ c ≤ '9' then some (c.toNat - '0'.toNat)
  else if 'a' ≤ c ∧ c ≤ 'f' then some (c.toNat - 'a'.toNat + 10)
  else if 'A' ≤ c ∧ c ≤ 'F' then some (c.toNat - 'A'.toNat + 10)
  else none

/-- Parse the body of a JSON string literal (the opening quote already
consumed), handling the escape sequences `encoding/json` accepts.  Returns
the decoded string and the unread remainder. -/
def parseStringBody : Nat → List Char → List Char → Option (String × List Char)
  | 0, _, _ => none
  | _ + 1, _, [] => none
  | fuel + 1, acc, c :: cs =>
    if c = '"' then some (String.mk acc.reverse, cs)
    else if c = '\\' then
      match cs with
      | [] => none
      | e :: cs' =>
        if e = '"' then parseStringBody fuel ('"' :: acc) cs'
        else if e = '\\' then parseStringBody fuel ('\\' :: acc) cs'
        else if e = '/' then parseStringBody fuel ('/' :: acc) cs'
        else if e = 'n' then parseStringBody fuel ('\n' :: acc) cs'
        else if e = 't' then parseStringBody fuel ('\t' :: acc) cs'
        else if e = 'r' then parseStringBody fuel ('\r' :: acc) cs'
        else if e = 'b' then parseStringBody fuel (Char.ofNat 8 :: acc) cs'
        else if e = 'f' then parseStringBody fuel (Char.ofNat 12 :: acc) cs'
        else if e = 'u' then
          match cs' with
          | h1 :: h2 :: h3 :: h4 :: cs'' =>
            match hexVal h1, hexVal h2, hexVal h3, hexVal h4 with
            | some a, some b, some c2, some d =>
              parseStringBody fuel
                (Char.ofNat (a * 4096 + b * 256 + c2 * 16 + d) :: acc) cs''
            | _, _, _, _ => none
          | _ => none
        else none
    else parseStringBody fuel (c :: acc) cs

/-- Characters that may occur in a JSON number token. -/
def numChar (c : Char) : Bool :=
  c.isDigit || c = '-' || c = '+' || c = '.' || c = 'e' || c = 'E'

/-- A number token must begin with a minus sign or a digit and contain a
digit. -/
def validNum : List Char → Bool
  | [] => false
  | c :: rest => c.isDigit || (c = '-' && rest.any Char.isDigit)

mutual

/-- Parse one JSON value.  Fuel-indexed recursive descent; the fuel chosen
by `jsonParse` dominates the recursion depth for any input it is run on. -/
def parseVal : Nat → List Char → Option (JVal × List Char)
  | 0, _ => none
  | fuel + 1, cs =>
    match skipWs cs with
    | [] => none
    | c :: cs' =>
      if c = '"' then
        match parseStringBody fuel [] cs' with
        | some (s, rest) => some (JVal.jstr s, rest)
        | none => none
      else if c = '\x7b' then
        match skipWs cs' with
        | '\x7d' :: rest => some (JVal.jobj [], rest)
        | _ => parseObjFields fuel [] cs'
      else if c = '[' then
        match skipWs cs' with
        | ']' :: rest => some (JVal.jarr [], rest)
        | _ => parseArrElems fuel [] cs'
      else if c = 't' then
        match cs' with
        | 'r' :: 'u' :: 'e' :: rest => some (JVal.jbool true, rest)
        | _ => none
      else if c = 'f' then
        match cs' with
        | 'a' :: 'l' :: 's' :: 'e' :: rest => some (JVal.jbool false, rest)
        | _ => none
      else if c = 'n' then
        match cs' with
        | 'u' :: 'l' :: 'l' :: rest => some (JVal.jnull, rest)
        | _ => none
      else if c = '-' ∨ c.isDigit then
        match (c :: cs').span numChar with
        | (numCs, rest) =>
          if validNum numCs then some (JVal.jnum (String.mk numCs), rest)
          else none
      else none

/-- Parse the members of a JSON object after the opening brace (at least one
member present).  Duplicate keys overwrite, as assignment into a Go map. -/
def parseObjFields : Nat → List (String × JVal) → List Char →
    Option (JVal × List Char)
  | 0, _, _ => none
  | fuel + 1, acc, cs =>
    match skipWs cs with
    | '"' :: cs' =>
      match parseStringBody fuel [] cs' with
      | none => none
      | some (k, cs₂) =>
        match skipWs cs₂ with
        | ':' :: cs₃ =>
          match parseVal fuel cs₃ with
          | none => none
          | some (v, cs₄) =>
            match skipWs cs₄ with
            | ',' :: cs₅ => parseObjFields fuel (upsert acc k v) cs₅
            | '\x7d' :: cs₅ => some (JVal.jobj (upsert acc k v), cs₅)
            | _ => none
        | _ => none
    | _ => none

/-- Parse the elements of a JSON array after the opening bracket (at least
one element present). -/
def parseArrElems : Nat → List JVal → List Char → Option (JVal × List Char)
  | 0, _, _ => none
  | fuel + 1, acc, cs =>
    match parseVal fuel cs with
    | none => none
    | some (v, cs₂) =>
      match skipWs cs₂ with
      | ',' :: cs₃ => parseArrElems fuel (v :: acc) cs₃
      | ']' :: cs₃ => some (JVal.jarr (v :: acc).reverse, cs₃)
      | _ => none

end

/-- `json.Unmarshal`-style whole-document parse: one value followed only by
whitespace. -/
def jsonParse (s : String) : Option JVal :=
  match parseVal (2 * s.length + 16) s.data with
  | some (v, rest) => if skipWs rest = [] then some v else none
  | none => none

/-- Hexadecimal digit character for a value below 16. -/
def hexDigit (n : Nat) : Char :=
  if n < 10 then Char.ofNat ('0'.toNat + n) else Char.ofNat ('a'.toNat + n - 10)

/-- Escaping of one character by `json.Marshal` (which also HTML-escapes
`<`, `>` and `&`). -/
def jsonEscChar (c : Char) : String :=
  if c = '"' then "\\\""
  else if c = '\\' then "\\\\"
  else if c = '\n' then "\\n"
  else if c = '\t' then "\\t"
  else if c = '\r' then "\\r"
  else if c = '<' then "\\u003c"
  else if c = '>' then "\\u003e"
  else if c = '&' then "\\u0026"
  else if c.toNat < 32 then
    String.mk ['\\', 'u', '0', '0', hexDigit (c.toNat / 16), hexDigit (c.toNat % 16)]
  else String.singleton c

/-- `json.Marshal` escaping over a character list. -/
def jsonEscStr : List Char → String
  | [] => ""
  | c :: cs => jsonEscChar c ++ jsonEscStr cs

/-- Lexicographic codepoint comparison of strings; agrees with the byte-wise
UTF-8 comparison Go uses to sort map keys when marshalling. -/
def strLtB : List Char → List Char → Bool
  | [], [] => false
  | [], _ :: _ => true
  | _ :: _, [] => false
  | a :: as, b :: bs =>
    if a.toNat < b.toNat then true
    else if b.toNat < a.toNat then false
    else strLtB as bs

/-- Insert a key/rendered-value pair into a list sorted by key, keeping the
byte-wise order Go uses when marshalling a map. -/
def insertPair (p : String × String) : List (String × String) → List (String × String)
  | [] => [p]
  | q :: rest =>
    if strLtB q.1.data p.1.data then q :: insertPair p rest else p :: q :: rest

/-- Sort key/rendered-value pairs by key (insertion sort). -/
def sortPairs (l : List (String × String)) : List (String × String) :=
  l.foldr insertPair []

/-- Render sorted object members: `"key":value` joined by commas. -/
def renderFields : List (String × String) → String
  | [] => ""
  | [(k, v)] => "\"" ++ jsonEscStr k.data ++ "\":" ++ v
  | (k, v) :: p :: rest =>
    "\"" ++ jsonEscStr k.data ++ "\":" ++ v ++ "," ++ renderFields (p :: rest)

/-- Join rendered array elements by commas. -/
def renderElems : List String → String
  | [] => ""
  | [v] => v
  | v :: w :: rest => v ++ "," ++ renderElems (w :: rest)

/-- Fuel-indexed rendering of a decoded document the way `json.Marshal`
renders a `map[string]interface\x7b\x7d`: object keys are emitted in sorted
order.  Any fuel that dominates the document's nesting depth yields the full
rendering; `getNetworkConf` passes the same fuel that `jsonParse` used to
produce the document, which dominates the depth of whatever that parse
produced. -/
def marshalValF : Nat → JVal → String
  | 0, _ => ""
  | _ + 1, JVal.jnull => "null"
  | _ + 1, JVal.jbool true => "true"
  | _ + 1, JVal.jbool false => "false"
  | _ + 1, JVal.jnum r => r
  | _ + 1, JVal.jstr s => "\"" ++ jsonEscStr s.data ++ "\""
  | fuel + 1, JVal.jarr xs =>
    "[" ++ renderElems (xs.map (marshalValF fuel)) ++ "]"
  | fuel + 1, JVal.jobj fs =>
    "\x7b" ++
      renderFields (sortPairs (fs.map (fun p => (p.1, marshalValF fuel p.2)))) ++
      "\x7d"

example : jsonParse "\x7b\"a\":1,\"b\":[true,null]\x7d" =
    some (JVal.jobj [("a", JVal.jnum "1"), ("b", JVal.jarr [JVal.jbool true, JVal.jnull])]) := rfl

example : marshalValF 4 (JVal.jobj [("b", JVal.jstr "x"), ("a", JVal.jnum "2")]) =
    "\x7b\"a\":2,\"b\":\"x\"\x7d" := rfl

/-! ## Embedding of `networkcontainers_linux.go` -/

/-- The `VersionStr` constant of the source file. -/
def VersionStr : String := "cniVersion"

/-- The `PluginsStr` constant of the source file. -/
def PluginsStr : String := "plugins"

/-- The `NameStr` constant of the source file. -/
def NameStr : String := "name"

/-- Outcome of a call to `getNetworkConf`: a byte slice returned with a nil
error, an error value returned to the caller, or a Go runtime panic raised by
a failed type assertion or an out-of-range index (which is not a returned
value at all — the call never returns normally). -/
inductive ConfResult where
  | ok : String → ConfResult
  | goErr : String → ConfResult
  | crash : String → ConfResult
deriving DecidableEq

/-- Whether a `ConfResult` is an error value returned to the caller. -/
def ConfResult.isGoErr : ConfResult → Bool
  | ConfResult.goErr _ => true
  | _ => false

/-- Whether a `ConfResult` is a runtime panic. -/
def ConfResult.isCrash : ConfResult → Bool
  | ConfResult.crash _ => true
  | _ => false

/-- Message of the returned error when `json.Unmarshal` rejects the file
contents. -/
def unmarshalSyntaxMsg : String := "json unmarshal: invalid JSON document"

/-- Message of the returned error when the top level of the document is not
an object and so cannot decode into a Go map. -/
def unmarshalShapeMsg : String :=
  "json unmarshal: cannot decode non-object document into map"

/-- Panic message of the failed type assertion on the plugins section. -/
def pluginsAssertMsg : String :=
  "interface conversion: plugins section missing or not a list"

/-- Panic message of the out-of-range index into an empty plugins list. -/
def indexRangeMsg : String := "runtime error: index out of range"

/-- Panic message of the failed type assertion on the first plugin entry. -/
def entryAssertMsg : String :=
  "interface conversion: first plugin entry is not an object"

/-- Panic message of the failed type assertion on the top-level version. -/
def versionAssertMsg : String :=
  "interface conversion: cniVersion missing or not a string"

/-- Panic message of the failed type assertion on the top-level name. -/
def nameAssertMsg : String :=
  "interface conversion: name missing or not a string"

/-- `getNetworkConf` of the source file, applied to the bytes read from the
configuration file.  It mirrors the Go statements in order: `json.Unmarshal`
into a map, the unchecked type assertion on `configMap[PluginsStr]`, the
unchecked index `pluginsSection[0]`, the unchecked assertion on that entry,
the unchecked string assertions on `configMap[VersionStr]` and
`configMap[NameStr]`, the two insertions into the first entry, and the final
`json.Marshal`.  Each unchecked step that fails is a runtime panic
(`ConfResult.crash`), not an error returned to the caller. -/
def getNetworkConf (content : String) : ConfResult :=
  match jsonParse content with
  | none => ConfResult.goErr unmarshalSyntaxMsg
  | some j =>
    match j with
    | JVal.jobj configMap =>
      match lookupJ configMap PluginsStr with
      | some (JVal.jarr pluginsSection) =>
        match pluginsSection with
        | [] => ConfResult.crash indexRangeMsg
        | p0 :: _ =>
          match p0 with
          | JVal.jobj flatNetConfigMap =>
            match lookupJ configMap VersionStr with
            | some (JVal.jstr v) =>
              match lookupJ configMap NameStr with
              | some (JVal.jstr n) =>
                ConfResult.ok (marshalValF (2 * content.length + 16)
                  (JVal.jobj (upsert (upsert flatNetConfigMap VersionStr (JVal.jstr v))
                    NameStr (JVal.jstr n))))
              | _ => ConfResult.crash nameAssertMsg
            | _ => ConfResult.crash versionAssertMsg
          | _ => ConfResult.crash entryAssertMsg
      | _ => ConfResult.crash pluginsAssertMsg
    | _ => ConfResult.goErr unmarshalShapeMsg

/-- One character escaped the way Go's `%q` verb (`strconv.Quote`) escapes
it inside a double-quoted string, following `appendEscapedRune`: the quote
and the backslash are backslashed; printable runes pass through, where for
runes up to U+00FF Go's printability rule is exactly `0x20-0x7e`, or
`0xa1-0xff` except the soft hyphen U+00AD; the seven named escapes cover
`\a \b \t \n \v \f \r`; each remaining rune below space, and DEL (U+007F),
becomes a two-digit `\x` form; every other non-printable Latin-1 rune (the
C1 controls U+0080-U+009F, U+00A0 and U+00AD) becomes a four-digit `\u`
form.  Runes above U+00FF pass through unescaped here, while Go also
escapes the non-printable ones among them via its Unicode tables, which
this model does not carry: every theorem about this function therefore
restricts the quoted string to the Latin-1 range, where the model is
exact. -/
def qEscChar (c : Char) : String :=
  if c = '"' then "\\\""
  else if c = '\\' then "\\\\"
  else if (32 ≤ c.toNat ∧ c.toNat ≤ 126) ∨
      (161 ≤ c.toNat ∧ c.toNat ≤ 255 ∧ c.toNat ≠ 173) ∨ 256 ≤ c.toNat then
    String.singleton c
  else if c.toNat = 7 then "\\a"
  else if c.toNat = 8 then "\\b"
  else if c = '\t' then "\\t"
  else if c = '\n' then "\\n"
  else if c.toNat = 11 then "\\v"
  else if c.toNat = 12 then "\\f"
  else if c = '\r' then "\\r"
  else if c.toNat < 32 ∨ c.toNat = 127 then
    String.mk ['\\', 'x', hexDigit (c.toNat / 16), hexDigit (c.toNat % 16)]
  else
    String.mk ['\\', 'u', '0', '0', hexDigit (c.toNat / 16), hexDigit (c.toNat % 16)]

/-- `%q` escaping over a character list. -/
def qEscStr : List Char → String
  | [] => ""
  | c :: cs => qEscChar c ++ qEscStr cs

/-- Go's `%q` formatting of a string: the escaped text between double
quotes. -/
def goQuote (s : String) : String := "\"" ++ qEscStr s.data ++ "\""

/-- ASCII lowering of a string, character by character. -/
def lowerStr (s : String) : String := String.mk (s.data.map Char.toLower)

/-- Case-insensitive association-list lookup, as `encoding/json` matches an
object key against an exported struct field name; when several keys match
the same field the last assignment wins. -/
def ciLookup (l : List (String × JVal)) (k : String) : Option JVal :=
  ((l.filter (fun p => lowerStr p.1 = lowerStr k)).map (fun p => p.2)).getLast?

/-- Whether one object member is accepted when unmarshalling into
`go/types.Error` (fields `Fset *token.FileSet`, `Pos token.Pos`,
`Msg string`, `Soft bool`; unknown keys are ignored; `null` is a no-op). -/
def typesErrorFieldOk (p : String × JVal) : Bool :=
  let k := lowerStr p.1
  if k = "msg" then
    match p.2 with
    | JVal.jstr _ => true
    | JVal.jnull => true
    | _ => false
  else if k = "pos" then
    match p.2 with
    | JVal.jnum _ => true
    | JVal.jnull => true
    | _ => false
  else if k = "soft" then
    match p.2 with
    | JVal.jbool _ => true
    | JVal.jnull => true
    | _ => false
  else if k = "fset" then
    match p.2 with
    | JVal.jobj _ => true
    | JVal.jnull => true
    | _ => false
  else true

/-- Message of the parse failure when the output is not valid JSON. -/
def outputSyntaxMsg : String := "invalid JSON in plugin output"

/-- Message of the parse failure when some field has the wrong type. -/
def outputFieldMsg : String := "json: cannot unmarshal plugin output field"

/-- Message of the parse failure when the output is JSON but not an
object. -/
def outputShapeMsg : String :=
  "json: cannot unmarshal non-object plugin output into types.Error"

/-- `json.Unmarshal(output, &emsg)` with `emsg : go/types.Error`: on success
the value of the `Msg` field (the zero value `""` when absent), otherwise
the unmarshalling error. -/
def unmarshalTypesError (output : String) : Except String String :=
  match jsonParse output with
  | none => Except.error outputSyntaxMsg
  | some JVal.jnull => Except.ok ""
  | some (JVal.jobj fields) =>
    if fields.all typesErrorFieldOk then
      Except.ok
        (match ciLookup fields "msg" with
         | some (JVal.jstr s) => s
         | _ => "")
    else Except.error outputFieldMsg
  | some _ => Except.error outputShapeMsg

/-- Outcome of `exec.Cmd.Run`: a nil error (clean exit), an
`*exec.ExitError` (the process ran and exited non-zero), or some other
error value (the binary could not be started, an I/O failure, ...). -/
inductive RunOutcome where
  | success : RunOutcome
  | exitErr : RunOutcome
  | otherErr : String → RunOutcome
deriving DecidableEq

/-- Error values `pluginErr` can produce: a `*go/types.Error` carrying a
message (the structured plugin error the source builds), or the original
run error returned as-is (whose dynamic type is not `*go/types.Error`). -/
inductive GoError where
  | typesErr : String → GoError
  | rawErr : String → GoError
deriving DecidableEq

/-- Whether a `GoError` is the structured (`*go/types.Error`) kind. -/
def GoError.isStructured : GoError → Bool
  | GoError.typesErr _ => true
  | GoError.rawErr _ => false

/-- The message `pluginErr` synthesizes when the captured output does not
unmarshal: `fmt.Sprintf("netplugin failed but error parsing its diagnostic
message %q: %v", string(output), perr)`. -/
def synthMsg (output perr : String) : String :=
  "netplugin failed but error parsing its diagnostic message " ++
    goQuote output ++ ": " ++ perr

/-- `pluginErr` of the source file.  A nil run error fails the
`*exec.ExitError` type assertion and is returned unchanged (still nil); an
exit-status error makes the function unmarshal the captured output into a
`go/types.Error` and return that struct, overwriting its `Msg` with the
synthesized diagnostic when unmarshalling failed; any other error is
returned unchanged. -/
def pluginErr (err : RunOutcome) (output : String) : Option GoError :=
  match err with
  | RunOutcome.success => none
  | RunOutcome.exitErr =>
    match unmarshalTypesError output with
    | Except.ok msg => some (GoError.typesErr msg)
    | Except.error perr => some (GoError.typesErr (synthMsg output perr))
  | RunOutcome.otherErr m => some (GoError.rawErr m)

example : pluginErr RunOutcome.exitErr "\x7b\"msg\":\"boom\"\x7d" =
    some (GoError.typesErr "boom") := rfl

example : pluginErr RunOutcome.exitErr "gibberish" =
    some (GoError.typesErr (synthMsg "gibberish" outputSyntaxMsg)) := rfl

/-- Modelled from the spec: the pod metadata decoded from the
orchestrator-context blob (spec section 3, `PodInfo`) — the
`cns.KubernetesPodInfo` structure of the cns package, which is not under
src/: a pod name and a pod namespace, both strings. -/
structure PodInfo where
  podName : String
  podNamespace : String
deriving DecidableEq

/-- Whether one object member is accepted when unmarshalling into the
pod-metadata structure (two exported string fields; unknown keys ignored;
`null` is a no-op). -/
def podInfoFieldOk (p : String × JVal) : Bool :=
  let k := lowerStr p.1
  if k = "podname" ∨ k = "podnamespace" then
    match p.2 with
    | JVal.jstr _ => true
    | JVal.jnull => true
    | _ => false
  else true

/-- Message of the decode failure when the orchestrator context is not
valid JSON. -/
def podInfoSyntaxMsg : String := "json unmarshal: invalid orchestrator context"

/-- Message of the decode failure when a pod-metadata field has the wrong
type. -/
def podInfoFieldMsg : String :=
  "json: cannot unmarshal orchestrator context field"

/-- Message of the decode failure when the orchestrator context is JSON but
not an object. -/
def podInfoShapeMsg : String :=
  "json: cannot unmarshal non-object orchestrator context"

/-- String value of one pod-metadata field (zero value when absent or
null). -/
def podInfoField (fields : List (String × JVal)) (k : String) : String :=
  match ciLookup fields k with
  | some (JVal.jstr s) => s
  | _ => ""

/-- `json.Unmarshal(createNetworkContainerRequest.OrchestratorContext,
&podInfo)`: decode the context bytes into the pod-metadata structure. -/
def unmarshalPodInfo (ctx : String) : Except String PodInfo :=
  match jsonParse ctx with
  | none => Except.error podInfoSyntaxMsg
  | some JVal.jnull => Except.ok ⟨"", ""⟩
  | some (JVal.jobj fields) =>
    if fields.all podInfoFieldOk then
      Except.ok ⟨podInfoField fields "podname", podInfoField fields "podnamespace"⟩
    else Except.error podInfoFieldMsg
  | some _ => Except.error podInfoShapeMsg

/-- `libcni.RuntimeConf` as the source populates it. -/
structure RuntimeConf where
  containerID : String
  netNS : String
  ifName : String
  runtimeArgs : List (String × String)
deriving DecidableEq

/-- `buildCNIRuntimeConf` of the source file: a pure constructor of the
runtime configuration, paired with the always-nil error it returns. -/
def buildCNIRuntimeConf (podName podNs podSandboxId podNetnsPath interfaceName : String) :
    RuntimeConf × Option String :=
  (⟨podSandboxId, podNetnsPath, interfaceName,
    [("K8S_POD_NAMESPACE", podNs), ("K8S_POD_NAME", podName)]⟩, none)

/-- `invoke.Args` of the CNI library as the source populates it. -/
structure InvokeArgs where
  command : String
  containerID : String
  netNS : String
  pluginArgs : List (String × String)
  ifName : String
  path : String
deriving DecidableEq

/-- `args` of the source file (the function building the environment
contract): copies the runtime configuration into `invoke.Args` with the
given action and the fixed plugin search path. -/
def args (action : String) (rt : RuntimeConf) : InvokeArgs :=
  ⟨action, rt.containerID, rt.netNS, rt.runtimeArgs, rt.ifName, "/opt/cni/bin"⟩

/-- `K1=V1;K2=V2` serialization of the plugin argument pairs, as the CNI
invoke library's `stringify` renders them for `CNI_ARGS`. -/
def stringifyPairs : List (String × String) → String
  | [] => ""
  | [(k, v)] => k ++ "=" ++ v
  | (k, v) :: p :: rest => k ++ "=" ++ v ++ ";" ++ stringifyPairs (p :: rest)

/-- `invoke.Args.AsEnv` of the CNI library (an external collaborator of
this file): the parent's environment followed by the six `CNI_*`
variables. -/
def InvokeArgs.asEnv (a : InvokeArgs) (osEnviron : List String) : List String :=
  osEnviron ++
    ["CNI_COMMAND=" ++ a.command,
     "CNI_CONTAINERID=" ++ a.containerID,
     "CNI_NETNS=" ++ a.netNS,
     "CNI_ARGS=" ++ stringifyPairs a.pluginArgs,
     "CNI_IFNAME=" ++ a.ifName,
     "CNI_PATH=" ++ a.path]

/-- Result of `os.Stat("/opt/cni/bin/azure-vnet")`: success, an error for
which `os.IsNotExist` holds, or any other error (permission denied, ...). -/
inductive StatResult where
  | ok : StatResult
  | errNotExist : StatResult
  | errOther : StatResult
deriving DecidableEq

/-- The world outside the embedded functions, fixed for one invocation:
the result of `interfaceExists` (a function of this repository that is not
under src/, modelled from the spec's "checks existing interface state"; its
error result is discarded by the caller), the stat of the plugin binary,
the contents of `/etc/cni/net.d/10-azure.conflist` (`none` when unreadable),
the parent process environment, and the subprocess behaviour (its run
outcome and what it wrote to standard output). -/
structure Env where
  ifaceExists : Bool
  statAzureVnet : StatResult
  confListContent : Option String
  osEnviron : List String
  runOutcome : RunOutcome
  runStdout : String
deriving DecidableEq

/-- The fields of `cns.CreateNetworkContainerRequest` this source file
reads.  Modelled from the spec: the cns package is not under src/; spec
section 3 gives the request an orchestrator-type tag, a container id, an IP
configuration whose address must be non-empty, and an opaque
orchestrator-context byte blob. -/
structure Request where
  networkContainerType : String
  networkContainerid : String
  ipAddress : String
  orchestratorContext : String
deriving DecidableEq

/-- Modelled from the spec: the `cns.WebApps` orchestrator-type constant
(the type for which interface management is unsupported); the cns package
is not under src/. -/
def WebApps : String := "WebApps"

/-- Observable side effects of one orchestration call: a call into the
configuration flattener (`getNetworkConf`), or the spawn of the plugin
subprocess with the environment handed to it. -/
inductive Effect where
  | flatten : Effect
  | spawn : List String → Effect
deriving DecidableEq

/-- Overall outcome of one orchestration call: a nil error, an error value
returned to the caller, or a propagated runtime panic. -/
inductive Outcome where
  | ok : Outcome
  | fail : GoError → Outcome
  | crash : String → Outcome
deriving DecidableEq

/-- Message of the error returned when the plugin binary is missing. -/
def binaryMissingMsg : String :=
  "[Azure CNS] Unable to find azure-vnet under /opt/cni/bin/. Cannot continue"

/-- Message of the error returned when the IP address is empty. -/
def ipEmptyMsg : String :=
  "[Azure CNS] IPAddress in IPConfiguration of createNetworkContainerRequest is nil"

/-- Message of the error returned when the configuration file cannot be
read. -/
def readFileMsg : String := "open /etc/cni/net.d/10-azure.conflist: read error"

/-- `getNetworkConf("/etc/cni/net.d/10-azure.conflist")` including the
`ioutil.ReadFile` step, against the environment's file contents. -/
def getNetworkConfFile (env : Env) : ConfResult :=
  match env.confListContent with
  | none => ConfResult.goErr readFileMsg
  | some content => getNetworkConf content

/-- `updateNetwork` of the source file: build the environment with the
constant action `"UPDATE"`, spawn the plugin feeding it the flattened
configuration, and interpret the run result with `pluginErr`.  The spawned
environment is recorded as an effect. -/
def updateNetwork (env : Env) (rt : RuntimeConf) (netconf : String) :
    Option GoError × List Effect :=
  let environ := (args "UPDATE" rt).asEnv env.osEnviron
  let _ := netconf
  (pluginErr env.runOutcome env.runStdout, [Effect.spawn environ])

/-- `createOrUpdateWithOperation` of the source file: the stat check on the
plugin binary (only a not-exist failure aborts), the empty-address check,
the orchestrator-context decode, the runtime-configuration build (never
fails), the configuration flattening, and the plugin invocation.  The
returned trace lists the flattener call and the subprocess spawn in
order. -/
def createOrUpdateWithOperation (env : Env) (req : Request) (operation : String) :
    Outcome × List Effect :=
  let _log := "[Azure CNS] createOrUpdateWithOperation called with operation type " ++ operation
  if env.statAzureVnet = StatResult.errNotExist then
    (Outcome.fail (GoError.rawErr binaryMissingMsg), [])
  else if req.ipAddress = "" then
    (Outcome.fail (GoError.rawErr ipEmptyMsg), [])
  else
    match unmarshalPodInfo req.orchestratorContext with
    | Except.error e => (Outcome.fail (GoError.rawErr e), [])
    | Except.ok podInfo =>
      match buildCNIRuntimeConf podInfo.podName podInfo.podNamespace "" ""
          req.networkContainerid with
      | (_, some e) => (Outcome.fail (GoError.rawErr e), [])
      | (rt, none) =>
        match getNetworkConfFile env with
        | ConfResult.goErr e => (Outcome.fail (GoError.rawErr e), [Effect.flatten])
        | ConfResult.crash m => (Outcome.crash m, [Effect.flatten])
        | ConfResult.ok netConf =>
          match updateNetwork env rt netConf with
          | (none, effs) => (Outcome.ok, Effect.flatten :: effs)
          | (some e, effs) => (Outcome.fail e, Effect.flatten :: effs)

/-- `createOrUpdateInterface` of the source file: a no-op success for the
WebApps orchestrator type, a no-op success when no existing interface is
found (the error of `interfaceExists` is discarded), and otherwise the
update path with operation tag `"UPDATE"`. -/
def createOrUpdateInterface (env : Env) (req : Request) : Outcome × List Effect :=
  if req.networkContainerType = WebApps then (Outcome.ok, [])
  else if !env.ifaceExists then (Outcome.ok, [])
  else createOrUpdateWithOperation env req "UPDATE"

/-! ## Helper lemmas -/

theorem lookupJ_upsert_self {α : Type} (l : List (String × α)) (k : String) (v : α) :
    lookupJ (upsert l k v) k = some v := by
  induction l with
  | nil => simp [upsert, lookupJ]
  | cons p rest ih =>
    obtain ⟨k', v'⟩ := p
    by_cases h : k' = k
    · simp [upsert, h, lookupJ]
    · simp [upsert, h, lookupJ, ih]

theorem lookupJ_upsert_ne {α : Type} (l : List (String × α)) (k k' : String) (v : α)
    (h : k' ≠ k) : lookupJ (upsert l k v) k' = lookupJ l k' := by
  induction l with
  | nil =>
    simp [upsert, lookupJ]
    intro he
    exact absurd he.symm h
  | cons p rest ih =>
    obtain ⟨k₀, v₀⟩ := p
    by_cases h₀ : k₀ = k
    · subst h₀
      have h' : k₀ ≠ k' := fun he => h he.symm
      simp [upsert, lookupJ, h']
    · simp [upsert, h₀, lookupJ, ih]

/-- Whether the value at a key is a string. -/
def strFieldAt (m : List (String × JVal)) (k : String) : Bool :=
  match lookupJ m k with
  | some (JVal.jstr _) => true
  | _ => false

/-- Whether the value at a key is a list. -/
def arrFieldAt (m : List (String × JVal)) (k : String) : Bool :=
  match lookupJ m k with
  | some (JVal.jarr _) => true
  | _ => false

/-- Whether the value at a key is the empty list. -/
def emptyArrAt (m : List (String × JVal)) (k : String) : Bool :=
  match lookupJ m k with
  | some (JVal.jarr []) => true
  | _ => false

/-! ## Claim C1 -/

/-- A configuration document whose `plugins` list is empty. -/
def c1EmptyPluginsDoc : String :=
  "\x7b\"cniVersion\":\"0.4.0\",\"name\":\"azure\",\"plugins\":[]\x7d"

/-- A configuration document whose top level lacks `cniVersion`. -/
def c1NoVersionDoc : String :=
  "\x7b\"name\":\"azure\",\"plugins\":[\x7b\"type\":\"vnet\"\x7d]\x7d"

/-- C1 counterexample: on the well-formed JSON document whose `plugins`
list is empty, `getNetworkConf` does not fail with a parsing error returned
to the caller — it hits the out-of-range index `pluginsSection[0]` and
aborts with a runtime panic, which is neither a returned error nor a
returned document. -/
theorem c1_counterexample :
    getNetworkConf c1EmptyPluginsDoc = ConfResult.crash indexRangeMsg ∧
    (getNetworkConf c1EmptyPluginsDoc).isGoErr = false :=
  ⟨rfl, rfl⟩

/-- C1 (amended): for every configuration document that parses as a JSON
object but whose `plugins` member is missing, not a list, or an empty list,
or whose `cniVersion` or `name` member is missing or not a string,
`getNetworkConf` aborts with a runtime panic (a failed type assertion or an
out-of-range index) instead of returning a parsing error; no flattened
document, partial or otherwise, is produced.  (Only an unreadable file, an
invalid JSON document, or a document whose top level is not an object yield
an error returned to the caller.) -/
theorem getNetworkConf_malformed_crashes (content : String) (m : List (String × JVal))
    (hparse : jsonParse content = some (JVal.jobj m))
    (hbad : arrFieldAt m PluginsStr = false ∨ emptyArrAt m PluginsStr = true ∨
            strFieldAt m VersionStr = false ∨ strFieldAt m NameStr = false) :
    (getNetworkConf content).isCrash = true := by
  simp only [getNetworkConf, hparse]
  unfold arrFieldAt emptyArrAt strFieldAt at hbad
  rcases hpl : lookupJ m PluginsStr with _ | v
  · simp [hpl, ConfResult.isCrash]
  · rw [hpl] at hbad
    rcases v with _ | b | r | s | xs | fs
    case jarr =>
      rcases xs with _ | ⟨p0, rest⟩
      · simp [hpl, ConfResult.isCrash]
      · rcases hv : lookupJ m VersionStr with _ | vv
        · rcases p0 with _ | _ | _ | _ | _ | entry <;>
            simp [hpl, hv, ConfResult.isCrash]
        · rw [hv] at hbad
          rcases hn : lookupJ m NameStr with _ | vn
          · rcases p0 with _ | _ | _ | _ | _ | entry <;>
              rcases vv with _ | _ | _ | _ | _ | _ <;>
              simp [hpl, hv, hn, ConfResult.isCrash]
          · rw [hn] at hbad
            rcases p0 with _ | _ | _ | _ | _ | entry <;>
              rcases vv with _ | _ | _ | _ | _ | _ <;>
              rcases vn with _ | _ | _ | _ | _ | _ <;>
              simp_all [ConfResult.isCrash]
    all_goals simp [hpl, ConfResult.isCrash]

/-- C1 witness: the amended theorem applied to the concrete document that
lacks `cniVersion`. -/
theorem c1_witness : (getNetworkConf c1NoVersionDoc).isCrash = true :=
  getNetworkConf_malformed_crashes c1NoVersionDoc
    [("name", JVal.jstr "azure"),
     ("plugins", JVal.jarr [JVal.jobj [("type", JVal.jstr "vnet")]])]
    rfl (Or.inr (Or.inr (Or.inl rfl)))

/-! ## Claim C2 -/

/-- The first plugin entry with the top-level version and name inserted, as
the two map assignments of the source perform it. -/
def flattenMap (entry : List (String × JVal)) (v n : String) : List (String × JVal) :=
  upsert (upsert entry VersionStr (JVal.jstr v)) NameStr (JVal.jstr n)

/-- The well-formed sample document of the claim. -/
def c2SampleDoc : String :=
  "\x7b\"cniVersion\":\"0.4.0\",\"name\":\"azure\",\"plugins\":[\x7b\"type\":\"vnet\"\x7d]\x7d"

/-- The flattened bytes produced for the sample document (keys in the
sorted order `json.Marshal` emits for a map). -/
def c2FlatStr : String :=
  "\x7b\"cniVersion\":\"0.4.0\",\"name\":\"azure\",\"type\":\"vnet\"\x7d"

/-- C2: for every well-formed configuration document — one that parses as an
object whose `plugins` member is a list with a first entry that is an
object, and whose `cniVersion` and `name` members are strings —
`getNetworkConf` returns, with a nil error, the serialization of exactly the
first plugin entry with the top-level `cniVersion` and `name` values
inserted: the flattened map holds `cniVersion` and `name` at the copied
values and agrees with the first entry on every other key.  In particular,
on the document with version `"0.4.0"`, name `"azure"` and single entry
`\x7b"type":"vnet"\x7d`, the result is exactly the object with field set
`type ↦ "vnet"`, `cniVersion ↦ "0.4.0"`, `name ↦ "azure"`. -/
theorem getNetworkConf_flattens :
    (∀ (content : String) (m entry : List (String × JVal)) (rest : List JVal) (v n : String),
      jsonParse content = some (JVal.jobj m) →
      lookupJ m PluginsStr = some (JVal.jarr (JVal.jobj entry :: rest)) →
      lookupJ m VersionStr = some (JVal.jstr v) →
      lookupJ m NameStr = some (JVal.jstr n) →
      getNetworkConf content =
        ConfResult.ok (marshalValF (2 * content.length + 16)
          (JVal.jobj (flattenMap entry v n))) ∧
      lookupJ (flattenMap entry v n) VersionStr = some (JVal.jstr v) ∧
      lookupJ (flattenMap entry v n) NameStr = some (JVal.jstr n) ∧
      ∀ k : String, k ≠ VersionStr → k ≠ NameStr →
        lookupJ (flattenMap entry v n) k = lookupJ entry k) ∧
    getNetworkConf c2SampleDoc = ConfResult.ok c2FlatStr ∧
    jsonParse c2FlatStr =
      some (JVal.jobj [("cniVersion", JVal.jstr "0.4.0"), ("name", JVal.jstr "azure"),
        ("type", JVal.jstr "vnet")]) := by
  refine ⟨?_, rfl, rfl⟩
  intro content m entry rest v n hparse hpl hv hn
  refine ⟨?_, ?_, ?_, ?_⟩
  · simp only [getNetworkConf, hparse, hpl, hv, hn, flattenMap]
  · unfold flattenMap
    rw [lookupJ_upsert_ne _ _ _ _ (by decide), lookupJ_upsert_self]
  · unfold flattenMap
    rw [lookupJ_upsert_self]
  · intro k hk1 hk2
    unfold flattenMap
    rw [lookupJ_upsert_ne _ _ _ _ hk2, lookupJ_upsert_ne _ _ _ _ hk1]

/-- C2 witness: the universal part of the theorem applied to the concrete
sample document. -/
theorem c2_witness :
    getNetworkConf c2SampleDoc =
      ConfResult.ok (marshalValF (2 * c2SampleDoc.length + 16)
        (JVal.jobj (flattenMap [("type", JVal.jstr "vnet")] "0.4.0" "azure"))) :=
  (getNetworkConf_flattens.1 c2SampleDoc
    [("cniVersion", JVal.jstr "0.4.0"), ("name", JVal.jstr "azure"),
     ("plugins", JVal.jarr [JVal.jobj [("type", JVal.jstr "vnet")]])]
    [("type", JVal.jstr "vnet")] [] "0.4.0" "azure" rfl rfl rfl rfl).1

/-! ## Claim C3 -/

/-- C3: for every request whose network-container type is the unsupported
WebApps orchestrator, and for every request whose container identity has no
existing interface, `createOrUpdateInterface` returns a nil error and an
empty effect trace: the configuration flattener is never invoked and no
subprocess is spawned. -/
theorem createOrUpdateInterface_noop (env : Env) (req : Request)
    (h : req.networkContainerType = WebApps ∨ env.ifaceExists = false) :
    createOrUpdateInterface env req = (Outcome.ok, []) := by
  rcases h with h | h
  · simp [createOrUpdateInterface, h]
  · by_cases ht : req.networkContainerType = WebApps
    · simp [createOrUpdateInterface, ht]
    · simp [createOrUpdateInterface, ht, h]

/-- An environment that reports no existing interface. -/
def c3Env : Env := ⟨false, StatResult.ok, none, [], RunOutcome.success, ""⟩

/-- A Kubernetes request for a container with no existing interface. -/
def c3Req : Request := ⟨"Kubernetes", "nc-1", "10.0.0.5", "\x7b\x7d"⟩

/-- C3 witness: the no-op theorem applied to a concrete request whose
container has no existing interface. -/
theorem c3_witness : createOrUpdateInterface c3Env c3Req = (Outcome.ok, []) :=
  createOrUpdateInterface_noop c3Env c3Req (Or.inr rfl)

/-! ## Claim C4 -/

/-- C4: `createOrUpdateWithOperation` returns an error with an empty effect
trace — no flattener call, no subprocess — when the plugin binary is absent
(stat fails with a not-exist error), when the IP address is the empty
string, or when the orchestrator context does not decode; and the three
checks fire in that order: the binary check wins over the others, and the
address check wins over the decode. -/
theorem createOrUpdateWithOperation_preconditions (env : Env) (req : Request) (op : String) :
    (env.statAzureVnet = StatResult.errNotExist →
      createOrUpdateWithOperation env req op =
        (Outcome.fail (GoError.rawErr binaryMissingMsg), [])) ∧
    (env.statAzureVnet ≠ StatResult.errNotExist → req.ipAddress = "" →
      createOrUpdateWithOperation env req op =
        (Outcome.fail (GoError.rawErr ipEmptyMsg), [])) ∧
    (∀ e : String, env.statAzureVnet ≠ StatResult.errNotExist → req.ipAddress ≠ "" →
      unmarshalPodInfo req.orchestratorContext = Except.error e →
      createOrUpdateWithOperation env req op =
        (Outcome.fail (GoError.rawErr e), [])) := by
  refine ⟨?_, ?_, ?_⟩
  · intro h
    simp [createOrUpdateWithOperation, h]
  · intro h hip
    simp [createOrUpdateWithOperation, h, hip]
  · intro e h hip hctx
    simp [createOrUpdateWithOperation, h, hip, hctx]

/-- An environment whose stat of the plugin binary reports not-exist. -/
def c4EnvNoBinary : Env := ⟨true, StatResult.errNotExist, none, [], RunOutcome.success, ""⟩

/-- An environment whose stat of the plugin binary succeeds. -/
def c4EnvOk : Env := ⟨true, StatResult.ok, none, [], RunOutcome.success, ""⟩

/-- A request with an empty IP address (and an empty address would also be
reported on `c4EnvNoBinary`, showing the binary check fires first). -/
def c4ReqNoIp : Request := ⟨"Kubernetes", "nc-1", "", "\x7b\x7d"⟩

/-- A request whose orchestrator context is not valid JSON. -/
def c4ReqBadCtx : Request := ⟨"Kubernetes", "nc-1", "10.0.0.5", "not json"⟩

/-- C4 witness: the three precondition branches at concrete inputs; the
first application uses a request whose address is also empty, so the
returned binary error exhibits the check order. -/
theorem c4_witness :
    createOrUpdateWithOperation c4EnvNoBinary c4ReqNoIp "UPDATE" =
      (Outcome.fail (GoError.rawErr binaryMissingMsg), []) ∧
    createOrUpdateWithOperation c4EnvOk c4ReqNoIp "UPDATE" =
      (Outcome.fail (GoError.rawErr ipEmptyMsg), []) ∧
    createOrUpdateWithOperation c4EnvOk c4ReqBadCtx "UPDATE" =
      (Outcome.fail (GoError.rawErr podInfoSyntaxMsg), []) :=
  ⟨(createOrUpdateWithOperation_preconditions c4EnvNoBinary c4ReqNoIp "UPDATE").1 rfl,
   (createOrUpdateWithOperation_preconditions c4EnvOk c4ReqNoIp "UPDATE").2.1
     (by decide) rfl,
   (createOrUpdateWithOperation_preconditions c4EnvOk c4ReqBadCtx "UPDATE").2.2
     podInfoSyntaxMsg (by decide) (by decide) rfl⟩

/-! ## Claim C10 -/

/-- C10: in the binary-presence check, only a not-exist stat failure aborts
the update path; a stat failure of any other kind (permission denied, ...)
passes the check, and the call behaves exactly as it does when the stat
succeeds — proceeding to the address and decode checks and onward. -/
theorem statOther_passes (env : Env) (req : Request) (op : String)
    (h : env.statAzureVnet = StatResult.errOther) :
    createOrUpdateWithOperation env req op =
      createOrUpdateWithOperation { env with statAzureVnet := StatResult.ok } req op := by
  simp [createOrUpdateWithOperation, getNetworkConfFile, updateNetwork, h]

/-- An environment whose stat of the plugin binary fails with an error that
is not not-exist. -/
def c10Env : Env := ⟨true, StatResult.errOther, none, [], RunOutcome.success, ""⟩

/-- A request with an empty IP address, for exercising the stat check. -/
def c10Req : Request := ⟨"Kubernetes", "nc-1", "", "\x7b\x7d"⟩

/-- C10 witness: with a permission-style stat failure and an empty address,
the call proceeds past the binary check and reports the empty address, as
it does when the stat succeeds. -/
theorem c10_witness :
    createOrUpdateWithOperation c10Env c10Req "UPDATE" =
      createOrUpdateWithOperation { c10Env with statAzureVnet := StatResult.ok }
        c10Req "UPDATE" :=
  statOther_passes c10Env c10Req "UPDATE" rfl

/-! ## Claim C5 -/

/-- The structured payload of the claim. -/
def c5Output : String := "\x7b\"msg\":\"boom\"\x7d"

/-- C5: when the subprocess exits with a non-zero status and its captured
standard output unmarshals as a structured plugin error payload, `pluginErr`
returns a structured plugin error whose message is exactly the payload's
message; in particular, for the payload `\x7b"msg":"boom"\x7d` the message
is exactly `"boom"`. -/
theorem pluginErr_structured :
    (∀ (output msg : String), unmarshalTypesError output = Except.ok msg →
      pluginErr RunOutcome.exitErr output = some (GoError.typesErr msg)) ∧
    pluginErr RunOutcome.exitErr c5Output = some (GoError.typesErr "boom") := by
  refine ⟨?_, rfl⟩
  intro output msg h
  simp [pluginErr, h]

/-- C5 witness: the universal part of the theorem applied to the concrete
payload of the claim. -/
theorem c5_witness : pluginErr RunOutcome.exitErr c5Output = some (GoError.typesErr "boom") :=
  pluginErr_structured.1 c5Output "boom" rfl

/-! ## Claim C7 -/

/-- C7: a clean subprocess exit is interpreted as success: `pluginErr` maps
a nil run error to nil whatever the captured output holds, and
`updateNetwork` returns a nil error whatever the subprocess wrote to its
captured standard output (the output is discarded). -/
theorem pluginErr_success (env : Env) (rt : RuntimeConf) (netconf : String)
    (h : env.runOutcome = RunOutcome.success) :
    (∀ output : String, pluginErr RunOutcome.success output = none) ∧
    updateNetwork env rt netconf =
      (none, [Effect.spawn ((args "UPDATE" rt).asEnv env.osEnviron)]) := by
  refine ⟨fun _ => rfl, ?_⟩
  simp [updateNetwork, h, pluginErr]

/-- An environment whose subprocess exits cleanly after writing text to its
standard output. -/
def c7Env : Env :=
  ⟨true, StatResult.ok, none, [], RunOutcome.success, "stdout text that is discarded"⟩

/-- A concrete runtime configuration. -/
def c7Rt : RuntimeConf := ⟨"", "", "nc-1", [("K8S_POD_NAMESPACE", "ns"), ("K8S_POD_NAME", "pod")]⟩

/-- C7 witness: the theorem applied to a concrete environment whose
subprocess exited cleanly after writing non-empty output. -/
theorem c7_witness :
    pluginErr RunOutcome.success "ignored" = none ∧
    updateNetwork c7Env c7Rt "netconf" =
      (none, [Effect.spawn ((args "UPDATE" c7Rt).asEnv c7Env.osEnviron)]) :=
  ⟨(pluginErr_success c7Env c7Rt "netconf" rfl).1 "ignored",
   (pluginErr_success c7Env c7Rt "netconf" rfl).2⟩

/-! ## Claim C8 -/

/-- C8: a run error that is not an exit-status error — the binary could not
be started, an I/O failure — is returned by `pluginErr` unchanged, and the
returned value is not a structured plugin error. -/
theorem pluginErr_passthrough :
    ∀ (m output : String),
      pluginErr (RunOutcome.otherErr m) output = some (GoError.rawErr m) ∧
      (pluginErr (RunOutcome.otherErr m) output).map GoError.isStructured = some false :=
  fun _ _ => ⟨rfl, rfl⟩

/-! ## Claim C6 -/

/-- Whether `needle` occurs contiguously, as given, inside `hay` (Bool,
over character lists). -/
def subListB (needle hay : List Char) : Bool :=
  (List.range (hay.length + 1)).any (fun i => needle.isPrefixOf (List.drop i hay))

/-- Whether one string occurs verbatim inside another. -/
def containsSub (needle hay : String) : Bool := subListB needle.data hay.data

theorem isPrefixOf_append_self (n y : List Char) : n.isPrefixOf (n ++ y) = true := by
  induction n with
  | nil => simp [List.isPrefixOf]
  | cons a as ih => simp [List.isPrefixOf, ih]

theorem subListB_at (n h : List Char) (i : Nat) (hi : i < h.length + 1)
    (hp : n.isPrefixOf (List.drop i h) = true) : subListB n h = true := by
  unfold subListB
  rw [List.any_eq_true]
  exact ⟨i, List.mem_range.mpr hi, hp⟩

theorem subListB_append (n x y : List Char) : subListB n (x ++ n ++ y) = true := by
  apply subListB_at _ _ x.length
  · simp only [List.length_append]
    omega
  · rw [List.append_assoc, List.drop_left]
    exact isPrefixOf_append_self n y

theorem subListB_suffix (n x : List Char) : subListB n (x ++ n) = true := by
  apply subListB_at _ _ x.length
  · simp only [List.length_append]
    omega
  · rw [List.drop_left]
    have h := isPrefixOf_append_self n ([] : List Char)
    rw [List.append_nil] at h
    exact h

theorem strData_append (s t : String) : (s ++ t).data = s.data ++ t.data := by
  cases s
  cases t
  rfl

theorem containsSub_mid (x n y : String) : containsSub n (x ++ n ++ y) = true := by
  unfold containsSub
  rw [strData_append, strData_append]
  exact subListB_append n.data x.data y.data

theorem containsSub_end (x n : String) : containsSub n (x ++ n) = true := by
  unfold containsSub
  rw [strData_append]
  exact subListB_suffix n.data x.data

/-- Whether every character of a string lies in the Latin-1 range
(U+0000-U+00FF), where the `%q` model is exact. -/
def latin1 (s : String) : Bool := s.data.all (fun c => c.toNat ≤ 255)

/-- Whether a string is unchanged by `%q` escaping: no quote, no backslash,
and no non-printable character (a control character — DEL included — the C1
range, U+00A0 or U+00AD). -/
def noEscape (s : String) : Bool :=
  s.data.all (fun c => qEscChar c == String.singleton c)

theorem noEscape_chars (s : String) (h : noEscape s = true) :
    ∀ c ∈ s.data, qEscChar c = String.singleton c := by
  unfold noEscape at h
  intro c hc
  exact eq_of_beq (List.all_eq_true.mp h c hc)

theorem qEscStr_id (l : List Char) (h : ∀ c ∈ l, qEscChar c = String.singleton c) :
    qEscStr l = String.mk l := by
  induction l with
  | nil => rfl
  | cons c cs ih =>
    have hc := h c (List.mem_cons_self c cs)
    have hrest := ih (fun d hd => h d (List.mem_cons_of_mem c hd))
    rw [qEscStr, hc, hrest]
    cases cs <;> rfl

theorem goQuote_id (s : String) (h : noEscape s = true) :
    goQuote s = "\"" ++ s ++ "\"" := by
  unfold goQuote
  rw [qEscStr_id s.data (noEscape_chars s h)]

/-- C6 (amended): when the subprocess exits with a non-zero status and its
captured output does not unmarshal as a plugin error payload, `pluginErr`
returns a synthesized structured plugin error whose message embeds the
`%q`-quoted form of the captured output together with the parse failure; the
parse failure appears verbatim, and the raw output appears verbatim exactly
when it contains no character that `%q` escapes — a quote, a backslash or a
non-printable character (DEL and the other non-printable Latin-1 runes
included) is embedded in escaped form instead.  The statement is restricted
to outputs in the Latin-1 range, where the `%q` model is exact. -/
theorem pluginErr_unparsed (output perr : String)
    (_hlat : latin1 output = true)
    (h : unmarshalTypesError output = Except.error perr) :
    pluginErr RunOutcome.exitErr output = some (GoError.typesErr (synthMsg output perr)) ∧
    containsSub perr (synthMsg output perr) = true ∧
    (noEscape output = true → containsSub output (synthMsg output perr) = true) := by
  refine ⟨by simp [pluginErr, h], ?_, ?_⟩
  · have hre : synthMsg output perr =
        ("netplugin failed but error parsing its diagnostic message " ++
          goQuote output ++ ": ") ++ perr := by
      unfold synthMsg
      apply String.ext
      simp [strData_append, List.append_assoc]
    rw [hre]
    exact containsSub_end _ perr
  · intro hesc
    have hre : synthMsg output perr =
        ("netplugin failed but error parsing its diagnostic message " ++ "\"") ++
          output ++ ("\"" ++ (": " ++ perr)) := by
      unfold synthMsg
      rw [goQuote_id output hesc]
      apply String.ext
      simp [strData_append, List.append_assoc]
    rw [hre]
    exact containsSub_mid _ output _

/-- An unparseable captured output containing a quote character. -/
def c6Output : String := "a\"b"

/-- C6 counterexample: on the non-JSON output `a"b`, the synthesized
message does not embed the raw captured output verbatim — the quote is
escaped by `%q`, so the three characters of the output never occur
contiguously in the message. -/
theorem c6_counterexample :
    pluginErr RunOutcome.exitErr c6Output =
      some (GoError.typesErr (synthMsg c6Output outputSyntaxMsg)) ∧
    containsSub c6Output (synthMsg c6Output outputSyntaxMsg) = false :=
  ⟨rfl, by decide⟩

/-- C6 witness: the amended theorem applied to the escape-free non-JSON
output `gibberish`. -/
theorem c6_witness :
    pluginErr RunOutcome.exitErr "gibberish" =
      some (GoError.typesErr (synthMsg "gibberish" outputSyntaxMsg)) ∧
    containsSub outputSyntaxMsg (synthMsg "gibberish" outputSyntaxMsg) = true ∧
    containsSub "gibberish" (synthMsg "gibberish" outputSyntaxMsg) = true := by
  have h := pluginErr_unparsed "gibberish" outputSyntaxMsg rfl rfl
  exact ⟨h.1, h.2.1, h.2.2 rfl⟩

/-! ## Claim C9 -/

/-- Every spawn effect a call to `createOrUpdateWithOperation` produces
carries the environment built by `args "UPDATE" rt` for some runtime
configuration: the action handed to the environment builder is the string
constant `"UPDATE"`, never the operation parameter. -/
theorem spawn_env_shape (env : Env) (req : Request) (op : String) (environ : List String)
    (h : Effect.spawn environ ∈ (createOrUpdateWithOperation env req op).2) :
    ∃ rt : RuntimeConf, environ = (args "UPDATE" rt).asEnv env.osEnviron := by
  simp only [createOrUpdateWithOperation, updateNetwork, buildCNIRuntimeConf] at h
  split at h
  · simp at h
  · split at h
    · simp at h
    · split at h
      · simp at h
      · split at h
        · simp at h
        · simp at h
        · rcases hpe : pluginErr env.runOutcome env.runStdout with _ | e <;>
            simp [hpe] at h <;> exact ⟨_, h⟩

/-- C9: the operation string handed to `createOrUpdateWithOperation` never
affects what reaches the plugin: two calls differing only in the operation
tag return identical results and traces, and every environment handed to a
spawned subprocess holds the constant command entry `CNI_COMMAND=UPDATE`. -/
theorem updateCommand_constant (env : Env) (req : Request) (op₁ op₂ : String) :
    createOrUpdateWithOperation env req op₁ = createOrUpdateWithOperation env req op₂ ∧
    ∀ environ : List String,
      Effect.spawn environ ∈ (createOrUpdateWithOperation env req op₁).2 →
      "CNI_COMMAND=UPDATE" ∈ environ := by
  constructor
  · rfl
  · intro environ hmem
    obtain ⟨rt, rfl⟩ := spawn_env_shape env req op₁ environ hmem
    unfold InvokeArgs.asEnv
    apply List.mem_append_right
    exact List.Mem.head _

/-- A well-formed configuration document for the happy path. -/
def c9Conf : String :=
  "\x7b\"cniVersion\":\"0.4.0\",\"name\":\"azure\",\"plugins\":[\x7b\"type\":\"vnet\"\x7d]\x7d"

/-- An environment in which the whole update path succeeds. -/
def c9Env : Env :=
  ⟨true, StatResult.ok, some c9Conf, ["PATH=/usr/bin"], RunOutcome.success, ""⟩

/-- A request whose orchestrator context decodes into pod metadata. -/
def c9Req : Request :=
  ⟨"Kubernetes", "nc-9", "10.0.0.9",
   "\x7b\"PodName\":\"pod-a\",\"PodNamespace\":\"ns-a\"\x7d"⟩

/-- The environment the spawned subprocess receives on that happy path. -/
def c9Environ : List String :=
  ["PATH=/usr/bin", "CNI_COMMAND=UPDATE", "CNI_CONTAINERID=", "CNI_NETNS=",
   "CNI_ARGS=K8S_POD_NAMESPACE=ns-a;K8S_POD_NAME=pod-a", "CNI_IFNAME=nc-9",
   "CNI_PATH=/opt/cni/bin"]

/-- C9 witness: two calls differing only in the operation tag coincide on a
concrete happy-path input, and the concrete spawned environment carries
`CNI_COMMAND=UPDATE`. -/
theorem c9_witness :
    createOrUpdateWithOperation c9Env c9Req "CREATE" =
      createOrUpdateWithOperation c9Env c9Req "DELETE" ∧
    "CNI_COMMAND=UPDATE" ∈ c9Environ :=
  ⟨(updateCommand_constant c9Env c9Req "CREATE" "DELETE").1,
   (updateCommand_constant c9Env c9Req "CREATE" "DELETE").2 c9Environ (by decide)⟩
